import Mathlib

/-!
Shallow embedding of `src/main.py` (a Grok mirror relay API).

The embedded parts are the ones the claims are about:
  * `parse_streaming_response` (the stream decoder / aggregator), embedded
    line by line, including the Python dynamic-typing behaviour of the
    dictionary inspections (`in`, indexing, `.get`, `+=`) and the
    per-line `try/except: continue` that keeps partial state; and
  * the `POST /api/chat` handler `chat`, with the upstream HTTP outcome
    abstracted as an input (timeout, or a status code with a body and a
    list of stream lines) and a boolean recording whether the outbound
    request was issued.

JSON numbers are modelled as integers (no claim involves numeric values;
only Python truthiness of numbers matters, which `Int` captures).
-/

/-- Python values as produced by `json.loads`: `None`, `bool`, numbers,
`str`, `list`, `dict`. -/
inductive Json where
  | null
  | bool (b : Bool)
  | num (n : Int)
  | str (s : String)
  | arr (xs : List Json)
  | obj (fields : List (String × Json))
deriving Inhabited

/-- Python truthiness (`if x:`) of a JSON value. -/
def pyTruthy : Json → Bool
  | .null => false
  | .bool b => b
  | .num n => n != 0
  | .str s => s != ""
  | .arr xs => !xs.isEmpty
  | .obj fs => !fs.isEmpty

/-- Dictionary lookup with the `json.loads` duplicate-key semantics:
the last binding of a key wins. -/
def lookupLast (fs : List (String × Json)) (k : String) : Option Json :=
  fs.foldl (fun acc p => if p.1 = k then some p.2 else acc) none

/-- Key lookup on a dict value; `none` on non-dicts. -/
def Json.getKey : Json → String → Option Json
  | .obj fs, k => lookupLast fs k
  | _, _ => none

/-- Whether a dict value has a key; `false` on non-dicts. -/
def Json.hasKey : Json → String → Bool
  | .obj fs, k => (lookupLast fs k).isSome
  | _, _ => false

/-- Whether `needle` occurs at the head of `hay`. -/
def subAt : List Char → List Char → Bool
  | [], _ => true
  | _ :: _, [] => false
  | a :: as, b :: bs => a == b && subAt as bs

/-- Whether `needle` occurs anywhere in `hay` (Python substring test). -/
def subAnywhere (needle : List Char) : List Char → Bool
  | [] => subAt needle []
  | hay@(_ :: rest) => subAt needle hay || subAnywhere needle rest

/-- The Python `in` operator `k in v`: key membership on dicts, substring
test on strings, element membership on lists (a string compares equal only
to an equal string), `TypeError` otherwise. -/
def pyContains (k : String) : Json → Except Unit Bool
  | .obj fs => .ok (lookupLast fs k).isSome
  | .str s => .ok (subAnywhere k.toList s.toList)
  | .arr xs => .ok (xs.any fun x => match x with | .str s => s == k | _ => false)
  | _ => .error ()

/-- Python indexing `v[k]` with a string key: dict lookup (`KeyError` when
missing), `TypeError` on anything else. -/
def pyIndex (v : Json) (k : String) : Except Unit Json :=
  match v with
  | .obj fs =>
    match lookupLast fs k with
    | some x => .ok x
    | none => .error ()
  | _ => .error ()

/-- Python `v.get(k, dflt)`: only dicts have `.get` (`AttributeError`
otherwise). -/
def pyGet (v : Json) (k : String) (dflt : Json) : Except Unit Json :=
  match v with
  | .obj fs => .ok ((lookupLast fs k).getD dflt)
  | _ => .error ()

/-- Python `+` on JSON values (`TypeError` on unsupported pairs; booleans
act as the integers 0 and 1, as in Python). -/
def pyAdd : Json → Json → Except Unit Json
  | .str a, .str b => .ok (.str (a ++ b))
  | .num a, .num b => .ok (.num (a + b))
  | .num a, .bool b => .ok (.num (a + (if b then 1 else 0)))
  | .bool a, .num b => .ok (.num ((if a then 1 else 0) + b))
  | .bool a, .bool b => .ok (.num ((if a then 1 else 0) + (if b then 1 else 0)))
  | .arr a, .arr b => .ok (.arr (a ++ b))
  | _, _ => .error ()

/-- The local accumulation state of `parse_streaming_response`:
`full_response` (a Python value, initially the empty string), `response_id`
and `conversation_id` (initially `None`, i.e. JSON null), `line_count`. -/
structure AggState where
  full_response : Json
  response_id : Json
  conversation_id : Json
  line_count : Nat

/-- The state at the top of `parse_streaming_response`. -/
def initState : AggState := ⟨.str "", .null, .null, 0⟩

/-- Per-line control flow: `.error (s, brk)` means the processing of the
current line stops here with state `s` — either a Python exception caught
by the per-line `except` (then `brk = false`, the loop continues) or the
`break` on a soft stop (then `brk = true`). `.ok s` means the line was
processed to the end without exception and without `break`. -/
def tryOp (s : AggState) : Except Unit α → Except (AggState × Bool) α
  | .ok a => .ok a
  | .error _ => .error (s, false)

/-- Sequencing of fallible per-line steps (explicit `Except` bind). -/
def andThen (x : Except (AggState × Bool) α)
    (f : α → Except (AggState × Bool) β) : Except (AggState × Bool) β :=
  match x with
  | .ok a => f a
  | .error e => .error e

/-- The `if "token" in x: token = x["token"]; if token: full_response += token`
block, shared by 方法1 (with `x` the inner response) and 方法3 (with `x`
the result). -/
def tokenStage (x : Json) (hasTok : Bool) (s : AggState) :
    Except (AggState × Bool) AggState :=
  if hasTok then
    andThen (tryOp s (pyIndex x "token")) fun token =>
    if pyTruthy token then
      andThen (tryOp s (pyAdd s.full_response token)) fun fr =>
      .ok { s with full_response := fr }
    else .ok s
  else .ok s

/-- The `if "responseId" in x: response_id = x["responseId"]` block. -/
def setRidStage (x : Json) (hasRid : Bool) (s : AggState) :
    Except (AggState × Bool) AggState :=
  if hasRid then
    andThen (tryOp s (pyIndex x "responseId")) fun rid =>
    .ok { s with response_id := rid }
  else .ok s

/-- The `if "conversationId" in x: conversation_id = x["conversationId"]`
block. -/
def setCidStage (x : Json) (hasCid : Bool) (s : AggState) :
    Except (AggState × Bool) AggState :=
  if hasCid then
    andThen (tryOp s (pyIndex x "conversationId")) fun cid =>
    .ok { s with conversation_id := cid }
  else .ok s

/-- The `if "message" in mr: full_response = mr["message"]` block
(wholesale replacement, not append). -/
def msgStage (mr : Json) (hasMsg : Bool) (s : AggState) :
    Except (AggState × Bool) AggState :=
  if hasMsg then
    andThen (tryOp s (pyIndex mr "message")) fun msg =>
    .ok { s with full_response := msg }
  else .ok s

/-- Method 1 (方法1) of `parse_streaming_response`: the nested `result.response`
shape — token append, `responseId`, `modelResponse` (full message and its
`responseId`), and the `isSoftStop` break, in source order. Only entered
when `"response" in result` was true. -/
def method1 (result : Json) (s : AggState) : Except (AggState × Bool) AggState :=
  andThen (tryOp s (pyIndex result "response")) fun inner =>
  andThen (tryOp s (pyContains "token" inner)) fun hasToken =>
  andThen (tokenStage inner hasToken s) fun s =>
  andThen (tryOp s (pyContains "responseId" inner)) fun hasRid =>
  andThen (setRidStage inner hasRid s) fun s =>
  andThen (tryOp s (pyContains "modelResponse" inner)) fun hasMR =>
  andThen
    (if hasMR then
      andThen (tryOp s (pyIndex inner "modelResponse")) fun mr =>
      andThen (tryOp s (pyContains "message" mr)) fun hasMsg =>
      andThen (msgStage mr hasMsg s) fun s =>
      andThen (tryOp s (pyContains "responseId" mr)) fun hasMrid =>
      setRidStage mr hasMrid s
    else .ok s) fun s =>
  andThen (tryOp s (pyGet inner "isSoftStop" (.bool false))) fun stop =>
  if pyTruthy stop then .error (s, true) else .ok s

/-- Method 2 (方法2) of `parse_streaming_response`: the `result.conversation`
shape, extracting `conversationId`. -/
def method2 (result : Json) (s : AggState) : Except (AggState × Bool) AggState :=
  andThen (tryOp s (pyContains "conversation" result)) fun hasConv =>
  if hasConv then
    andThen (tryOp s (pyIndex result "conversation")) fun conv =>
    andThen (tryOp s (pyContains "conversationId" conv)) fun hasCid =>
    setCidStage conv hasCid s
  else .ok s

/-- Method 3 (方法3) of `parse_streaming_response`: the legacy flat shape — `token`,
`conversationId`, `responseId` directly under `result`. -/
def method3 (result : Json) (s : AggState) : Except (AggState × Bool) AggState :=
  andThen (tryOp s (pyContains "token" result)) fun hasTok =>
  andThen (tokenStage result hasTok s) fun s =>
  andThen (tryOp s (pyContains "conversationId" result)) fun hasCid =>
  andThen (setCidStage result hasCid s) fun s =>
  andThen (tryOp s (pyContains "responseId" result)) fun hasRid =>
  setRidStage result hasRid s

/-- The body of the per-line `try` block on an already JSON-parsed line
`data`: the `"result" in data` guard, then 方法1 (guarded by
`"response" in result`), 方法2 and 方法3 in sequence. -/
def processParsedE (data : Json) (s : AggState) : Except (AggState × Bool) AggState :=
  andThen (tryOp s (pyContains "result" data)) fun hasResult =>
  if hasResult then
    andThen (tryOp s (pyIndex data "result")) fun result =>
    andThen (tryOp s (pyContains "response" result)) fun hasResponse =>
    andThen (if hasResponse then method1 result s else .ok s) fun s =>
    andThen (method2 result s) fun s =>
    method3 result s
  else .ok s

/-- Outcome of one parsed line: the state after the line, and whether the
`break` on a soft stop fired. A caught exception keeps the partial state
and does not break. -/
def processParsed (data : Json) (s : AggState) : AggState × Bool :=
  match processParsedE data s with
  | .ok s => (s, false)
  | .error r => r

/-- One raw line of the upstream stream, as seen by the loop: empty
(falsy, skipped and not counted), malformed (fails UTF-8 decoding or JSON
parsing — both are caught and skipped), or parsed into a JSON value. -/
inductive RawLine where
  | blank
  | malformed
  | parsed (data : Json)

/-- One iteration of the `for line in response.iter_lines()` loop:
blank lines are skipped; any non-empty line first increments
`line_count`, then malformed lines fall into the `except` handlers and
parsed lines are processed. -/
def stepRaw (l : RawLine) (s : AggState) : AggState × Bool :=
  match l with
  | .blank => (s, false)
  | .malformed => ({ s with line_count := s.line_count + 1 }, false)
  | .parsed data => processParsed data { s with line_count := s.line_count + 1 }

/-- The decode loop over a finite list of raw lines, stopping early when
a line breaks. -/
def parseLoop : List RawLine → AggState → AggState
  | [], s => s
  | l :: rest, s =>
    if (stepRaw l s).2 then (stepRaw l s).1 else parseLoop rest (stepRaw l s).1

/-- The dictionary returned by `parse_streaming_response`. -/
structure ParseResult where
  response : Json
  response_id : Json
  conversation_id : Json
  debug_line_count : Nat

/-- `parse_streaming_response`: run the decode loop from the fresh local
state and return the result dictionary. -/
def parse_streaming_response (lines : List RawLine) : ParseResult :=
  let s := parseLoop lines initState
  ⟨s.full_response, s.response_id, s.conversation_id, s.line_count⟩

/-- The inbound request body of `POST /api/chat`. -/
structure ChatRequest where
  message : String
  model : String

/-- The response envelope `ChatResponse` of the API. -/
structure ChatResponse where
  success : Bool
  data : Option Json
  error : Option String

/-- The outcome of the outbound `requests.post` call, abstracted: a
timeout, or a response with a status code, a body text and (when
streamed) its raw lines. -/
inductive Upstream where
  | timeout
  | response (status : Nat) (body : String) (lines : List RawLine)

/-- The `POST /api/chat` handler. The second component of the result
records whether the outbound request to the upstream service was issued
(`requests.post` is reached only after the empty-message check). -/
def chat (request : ChatRequest) (upstream : Upstream) : ChatResponse × Bool :=
  if request.message = "" then
    ({ success := false, data := none, error := some "Message is required" }, false)
  else
    match upstream with
    | .timeout =>
      ({ success := false, data := none, error := some "Request timeout" }, true)
    | .response status body lines =>
      if status = 200 then
        let result := parse_streaming_response lines
        if !pyTruthy result.response then
          ({ success := false
             data := some (.obj [("debug_info", .obj
               [("lines_processed", .num result.debug_line_count),
                ("response_id", result.response_id),
                ("conversation_id", result.conversation_id),
                ("hint", .str "檢查 Logs 取得詳細資訊")])])
             error := some "No response text extracted" }, true)
        else
          ({ success := true
             data := some (.obj
               [("response", result.response),
                ("conversation_id", result.conversation_id),
                ("response_id", result.response_id)])
             error := none }, true)
      else
        ({ success := false
           data := some (.obj [("details", .str (body.take 200))])
           error := some ("Request failed with status " ++ toString status) }, true)

/-- A conversation-announcement line
`{"result":{"conversation":{"conversationId": cid}}}`. -/
def convData (cid : String) : Json :=
  .obj [("result", .obj [("conversation", .obj [("conversationId", .str cid)])])]

/-- A token-fragment line `{"result":{"response":{"token": t}}}`. -/
def tokData (t : String) : Json :=
  .obj [("result", .obj [("response", .obj [("token", .str t)])])]

/-- A stop-signal line `{"result":{"response":{"isSoftStop":true}}}`. -/
def stopData : Json :=
  .obj [("result", .obj [("response", .obj [("isSoftStop", .bool true)])])]

/-- A full-message line
`{"result":{"response":{"modelResponse":{"message": m}}}}`. -/
def fullMsgData (m : String) : Json :=
  .obj [("result", .obj [("response", .obj
    [("modelResponse", .obj [("message", .str m)])])])]

/-- Raw-line wrappers for the sample lines. -/
def convLine (cid : String) : RawLine := .parsed (convData cid)

/-- Token-fragment raw line. -/
def tokLine (t : String) : RawLine := .parsed (tokData t)

/-- Stop-signal raw line. -/
def stopLine : RawLine := .parsed stopData

/-- Full-message raw line. -/
def fullMsgLine (m : String) : RawLine := .parsed (fullMsgData m)

/-! ### Sample lines and helper lemmas for the theorems -/

/-- A line combining a stop-signal with a conversation announcement. -/
def stopConvData : Json :=
  .obj [("result", .obj
    [("response", .obj [("isSoftStop", .bool true)]),
     ("conversation", .obj [("conversationId", .str "c9")])])]

/-- A line combining a nested token with a conversation announcement and a
legacy flat `responseId`. -/
def comboData : Json :=
  .obj [("result", .obj
    [("response", .obj [("token", .str "a")]),
     ("conversation", .obj [("conversationId", .str "c")]),
     ("responseId", .str "r")])]

/-- A nested-shape line supplying only `responseId`, with value `r`. -/
def ridData (r : Json) : Json :=
  .obj [("result", .obj [("response", .obj [("responseId", r)])])]

/-- Two fresh runs of the decoder over the same raw lines (two independent
calls of `parse_streaming_response`, each starting from its own fresh
accumulation state). -/
def decodeTwice (lines : List RawLine) : ParseResult × ParseResult :=
  (parse_streaming_response lines, parse_streaming_response lines)

/-- The state in which the processing of one line ends, whether it fell
through (`.ok`), hit a caught exception or broke (`.error`). -/
def stateOf : Except (AggState × Bool) AggState → AggState
  | .ok s => s
  | .error (s, _) => s

/-- Whether the nested `result.response` shape of `result` syntactically
supplies a `responseId` (directly or inside `modelResponse`). -/
def respSuppliesRid (result : Json) : Bool :=
  match result.getKey "response" with
  | some inner =>
    inner.hasKey "responseId" ||
      (match inner.getKey "modelResponse" with
       | some mr => mr.hasKey "responseId"
       | none => false)
  | none => false

/-- Whether a parsed line syntactically supplies a `responseId` in any of
the shapes the decoder reads it from. -/
def suppliesResponseId (data : Json) : Bool :=
  match data.getKey "result" with
  | some result => respSuppliesRid result || result.hasKey "responseId"
  | none => false

/-- Whether a parsed line syntactically supplies a `conversationId` in any
of the shapes the decoder reads it from. -/
def suppliesConversationId (data : Json) : Bool :=
  match data.getKey "result" with
  | some result =>
    (match result.getKey "conversation" with
     | some conv => conv.hasKey "conversationId"
     | none => false) || result.hasKey "conversationId"
  | none => false

theorem stepRaw_stop (s : AggState) : (stepRaw stopLine s).2 = true := rfl

theorem stepRaw_conv (cid : String) (s : AggState) :
    stepRaw (convLine cid) s
      = ({ s with conversation_id := .str cid, line_count := s.line_count + 1 },
         false) := rfl

theorem stepRaw_fullMsg (m : String) (s : AggState) :
    stepRaw (fullMsgLine m) s
      = ({ s with full_response := .str m, line_count := s.line_count + 1 },
         false) := rfl

theorem parseLoop_append (pre rest : List RawLine) (s : AggState)
    (h : ∀ l ∈ pre, ∀ s, (stepRaw l s).2 = false) :
    parseLoop (pre ++ rest) s = parseLoop rest (parseLoop pre s) := by
  induction pre generalizing s with
  | nil => rfl
  | cons hd tl ih =>
    have hhd := h hd (List.mem_cons_self hd tl)
    simp only [List.cons_append, parseLoop, hhd, if_false]
    exact ih _ (fun l hl => h l (List.mem_cons_of_mem hd hl))

theorem parseLoop_tokens (toks : List String) :
    ∀ a rid cid n, parseLoop (toks.map tokLine) ⟨.str a, rid, cid, n⟩
      = ⟨.str (toks.foldl (fun acc t => acc ++ t) a), rid, cid, n + toks.length⟩ := by
  induction toks with
  | nil => intro a rid cid n; simp [parseLoop]
  | cons t ts ih =>
    intro a rid cid n
    by_cases ht : t = ""
    · subst ht
      rw [show parseLoop (List.map tokLine ("" :: ts)) ⟨Json.str a, rid, cid, n⟩
            = parseLoop (List.map tokLine ts) ⟨Json.str a, rid, cid, n + 1⟩ from rfl,
          ih]
      simp [String.append_empty]
      omega
    · rw [show List.map tokLine (t :: ts) = tokLine t :: List.map tokLine ts from rfl]
      have hstep : stepRaw (tokLine t) ⟨Json.str a, rid, cid, n⟩
          = (⟨Json.str (a ++ t), rid, cid, n + 1⟩, false) := by
        simp [stepRaw, tokLine, tokData, processParsed, processParsedE, method1,
          method2, method3, tokenStage, setRidStage, setCidStage, msgStage,
          andThen, tryOp, pyContains, pyIndex, pyGet, pyAdd, pyTruthy,
          lookupLast, ht]
      simp only [parseLoop, hstep, if_false]
      rw [ih]
      simp
      omega

/-! ### Claim theorems -/

/-- C1: on the four-line Scenario A stream — conversation announcement
with id `c1`, tokens `He` and `llo`, then a true soft stop — the decoder
returns text `Hello`, conversation id `c1`, a null response id, and a
processed-line count of 4. -/
theorem scenarioA_parse :
    parse_streaming_response [convLine "c1", tokLine "He", tokLine "llo", stopLine]
      = ⟨.str "Hello", .null, .str "c1", 4⟩ := rfl

/-- C3: as soon as a line breaks the loop (a true soft stop, which breaks
in every state), the remaining lines are never consumed: the whole decode
result, processed-line count included, equals the result of the stream
truncated right after that line. -/
theorem stop_halts_decoding (pre post : List RawLine) (l : RawLine)
    (hstop : ∀ s, (stepRaw l s).2 = true) :
    parse_streaming_response (pre ++ l :: post)
      = parse_streaming_response (pre ++ [l]) := by
  unfold parse_streaming_response
  suffices h : ∀ s, parseLoop (pre ++ l :: post) s = parseLoop (pre ++ [l]) s by
    rw [h]
  intro s
  induction pre generalizing s with
  | nil => simp [parseLoop, hstop]
  | cons hd tl ih =>
    simp only [List.cons_append, parseLoop]
    cases hb : (stepRaw hd s).2 with
    | false => simp [ih]
    | true => simp

/-- Witness for C3 at a concrete stream: a stop line followed by a token
line decodes exactly like the stop line alone. -/
theorem stop_halts_decoding_witness :
    parse_streaming_response ([convLine "c1"] ++ stopLine :: [tokLine "z"])
      = parse_streaming_response ([convLine "c1"] ++ [stopLine]) :=
  stop_halts_decoding [convLine "c1"] [tokLine "z"] stopLine stepRaw_stop

/-- C5 counterexample: a malformed line is included in the returned
processed-line count (`line_count` is incremented before decoding is
attempted, and no separate skip counter exists): with one malformed line
followed by one token line, the count is 2, not the 1 the claim would
require. The text still shows only the well-formed line. -/
theorem malformed_in_count_cex :
    (parse_streaming_response [.malformed, tokLine "hi"]).debug_line_count = 2 ∧
    (parse_streaming_response [.malformed, tokLine "hi"]).response = .str "hi" ∧
    (parse_streaming_response [.malformed, tokLine "hi"]).debug_line_count ≠ 1 :=
  ⟨rfl, rfl, by decide⟩

/-- C5 amended: a malformed non-empty line leaves the accumulated text and
both identifiers unchanged and does not abort the decoding of the
remaining lines, but it is counted in the processed-line count; the code
keeps no separate malformed-line counter. -/
theorem malformed_skipped_but_counted (s : AggState) (rest : List RawLine) :
    parseLoop (.malformed :: rest) s
      = parseLoop rest { s with line_count := s.line_count + 1 } := rfl

/-- C8: an inbound request with an empty message short-circuits to the
`Message is required` failure envelope, and the outbound upstream call is
never issued (the call flag is `false`), for every upstream behaviour. -/
theorem empty_message_rejected (request : ChatRequest) (upstream : Upstream)
    (h : request.message = "") :
    chat request upstream
      = ({ success := false, data := none, error := some "Message is required" },
         false) := by
  simp [chat, h]

/-- Witness for C8 at a concrete empty-message request. -/
theorem empty_message_rejected_witness :
    chat ⟨"", "grok-3"⟩ (.response 200 "" [tokLine "hi"])
      = ({ success := false, data := none, error := some "Message is required" },
         false) :=
  empty_message_rejected ⟨"", "grok-3"⟩ (.response 200 "" [tokLine "hi"]) rfl

/-- C9: decoding is deterministic and idempotent — two independent decode
passes over the same fixed list of raw lines, each from a fresh
accumulation state, return identical results. -/
theorem decode_deterministic (lines : List RawLine) :
    (decodeTwice lines).1 = (decodeTwice lines).2 := rfl

/-- C10: a full-message line whose `message` is the empty string replaces
the whole accumulated text with the empty string in every state (erasing
previously accumulated tokens), and a chat call whose stream consists of
two tokens followed by such a line returns the `success = false`
`No response text extracted` envelope with the diagnostic payload. -/
theorem empty_full_message_erases :
    (∀ t rid cid n, stepRaw (fullMsgLine "") ⟨.str t, rid, cid, n⟩
        = (⟨.str "", rid, cid, n + 1⟩, false)) ∧
    chat ⟨"hi", "grok-3"⟩
        (.response 200 "" [tokLine "He", tokLine "llo", fullMsgLine ""])
      = ({ success := false
           data := some (.obj [("debug_info", .obj
             [("lines_processed", .num 3), ("response_id", .null),
              ("conversation_id", .null),
              ("hint", .str "檢查 Logs 取得詳細資訊")])])
           error := some "No response text extracted" }, true) :=
  ⟨fun _ _ _ _ => rfl, rfl⟩

/-- C2: over any stream made of a non-breaking prefix, then a full-message
line with content `m`, then token-fragment lines, the final text is `m`
followed by the later fragments in order: the full message replaced
everything accumulated by the prefix, and later tokens appended onto it
(an empty fragment is a no-op, matching the fold with append). -/
theorem full_message_replaces (pre : List RawLine) (m : String) (toks : List String)
    (hpre : ∀ l ∈ pre, ∀ s, (stepRaw l s).2 = false) :
    (parse_streaming_response (pre ++ fullMsgLine m :: toks.map tokLine)).response
      = .str (toks.foldl (fun acc t => acc ++ t) m) := by
  have hbody : ∀ s : AggState,
      parseLoop (fullMsgLine m :: toks.map tokLine) s
        = ⟨.str (toks.foldl (fun acc t => acc ++ t) m), s.response_id,
           s.conversation_id, s.line_count + 1 + toks.length⟩ := by
    intro s
    have h1 : parseLoop (fullMsgLine m :: toks.map tokLine) s
        = parseLoop (toks.map tokLine)
            ⟨.str m, s.response_id, s.conversation_id, s.line_count + 1⟩ := by
      simp [parseLoop, stepRaw_fullMsg]
    rw [h1, parseLoop_tokens]
  show (parse_streaming_response (pre ++ fullMsgLine m :: toks.map tokLine)).response = _
  unfold parse_streaming_response
  rw [parseLoop_append pre (fullMsgLine m :: toks.map tokLine) initState hpre, hbody]

/-- Witness for C2 at a concrete stream: a conversation line, a full
message `Full`, then fragments `a` and `b` give final text `Fullab`. -/
theorem full_message_replaces_witness :
    (parse_streaming_response
        ([convLine "c"] ++ fullMsgLine "Full" :: List.map tokLine ["a", "b"])).response
      = .str "Fullab" :=
  full_message_replaces [convLine "c"] "Full" ["a", "b"]
    (fun l hl => by
      cases hl with
      | head => exact fun s => rfl
      | tail b hb => exact absurd hb (List.not_mem_nil l))

/-- C4 counterexample: on a line carrying both a true stop-signal (in the
nested response shape) and a conversation announcement with id `c9`, the
conversation id is NOT applied — the decoder returns a null conversation
id, because the `break` fires before the conversation and legacy-flat
checks run on that line. -/
theorem stop_line_skips_other_shapes_cex :
    (parse_streaming_response [.parsed stopConvData]).conversation_id = Json.null ∧
    (parse_streaming_response [.parsed stopConvData]).conversation_id ≠ Json.str "c9" :=
  ⟨rfl, fun h => Json.noConfusion h⟩

/-- C4 amended: the three shape checks are independent and can all fire on
one and the same line — a line combining a nested token, a conversation
announcement and a legacy flat `responseId` gets all three applied — but
when the nested shape carries a true stop-signal, the loop breaks before
the conversation and legacy-flat checks, so those fields on the stop line
itself are not applied (the state is returned unchanged apart from the
line count). -/
theorem shape_checks_fire_independently :
    (∀ t rid cid n, stepRaw (.parsed comboData) ⟨.str t, rid, cid, n⟩
        = (⟨.str (t ++ "a"), .str "r", .str "c", n + 1⟩, false)) ∧
    (∀ s, stepRaw (.parsed stopConvData) s
        = ({ s with line_count := s.line_count + 1 }, true)) :=
  ⟨fun _ _ _ _ => rfl, fun _ => rfl⟩

/-- C7 counterexample: on an upstream HTTP 500 the endpoint returns
`success = false` together with a non-null `data` field (the diagnostic
`details` payload), so `data` is not always null on failure. -/
theorem failure_envelope_with_data_cex :
    (chat ⟨"hi", "grok-3"⟩ (.response 500 "boom" [])).1.success = false ∧
    (chat ⟨"hi", "grok-3"⟩ (.response 500 "boom" [])).1.data ≠ none :=
  ⟨rfl, fun h => Option.noConfusion h⟩

/-- C7 amended: on every response of the endpoint, `success = true`
implies `data` is non-null and `error` is null, and `success = false`
implies `error` is non-null (but `data` may then also be non-null,
carrying diagnostic payloads). -/
theorem envelope_payload_discipline (request : ChatRequest) (upstream : Upstream) :
    ((chat request upstream).1.success = true ∧ (chat request upstream).1.data ≠ none
        ∧ (chat request upstream).1.error = none) ∨
    ((chat request upstream).1.success = false
        ∧ (chat request upstream).1.error ≠ none) := by
  by_cases hm : request.message = ""
  · right
    simp [chat, hm]
  · cases upstream with
    | timeout => right; simp [chat, hm]
    | response status body lines =>
      by_cases hs : status = 200
      · by_cases ht : pyTruthy (parse_streaming_response lines).response
        · left; simp [chat, hm, hs, ht]
        · right; simp [chat, hm, hs, ht]
      · right; simp [chat, hm, hs]

/-! ### Identifier-preservation lemmas (for the invariants claim) -/

theorem pyIndex_ok {v : Json} {k : String} {x : Json}
    (h : pyIndex v k = .ok x) : v.getKey k = some x := by
  cases v with
  | obj fs =>
    have h2 : (match lookupLast fs k with
               | some y => Except.ok y
               | none => Except.error ()) = Except.ok x := h
    cases hl : lookupLast fs k with
    | none => rw [hl] at h2; simp at h2
    | some y =>
      rw [hl] at h2
      simp at h2
      simp [Json.getKey, hl, h2]
  | null => simp [pyIndex] at h
  | bool b => simp [pyIndex] at h
  | num n => simp [pyIndex] at h
  | str s => simp [pyIndex] at h
  | arr xs => simp [pyIndex] at h

theorem proj_andThen_tryOp (proj : AggState → Json) {α : Type} (s : AggState)
    (e : Except Unit α) (f : α → Except (AggState × Bool) AggState)
    (hf : ∀ a, e = .ok a → proj (stateOf (andThen (.ok a) f)) = proj s) :
    proj (stateOf (andThen (tryOp s e) f)) = proj s := by
  cases he : e with
  | error u => rfl
  | ok a => exact hf a he

theorem proj_andThen (proj : AggState → Json)
    (x : Except (AggState × Bool) AggState)
    (f : AggState → Except (AggState × Bool) AggState) (s : AggState)
    (hx : proj (stateOf x) = proj s)
    (hf : ∀ s1, x = .ok s1 → proj (stateOf (f s1)) = proj s1) :
    proj (stateOf (andThen x f)) = proj s := by
  cases hx2 : x with
  | error e => rw [hx2] at hx; exact hx
  | ok s1 =>
    rw [hx2] at hx
    exact (hf s1 hx2).trans hx

theorem tokenStage_rid (x : Json) (b : Bool) (s : AggState) :
    (stateOf (tokenStage x b s)).response_id = s.response_id := by
  cases b with
  | false => rfl
  | true =>
    cases hx : pyIndex x "token" with
    | error e => simp [tokenStage, andThen, tryOp, hx, stateOf]
    | ok token =>
      by_cases ht : pyTruthy token
      · cases ha : pyAdd s.full_response token with
        | error e => simp [tokenStage, andThen, tryOp, hx, ha, ht, stateOf]
        | ok fr => simp [tokenStage, andThen, tryOp, hx, ha, ht, stateOf]
      · simp [tokenStage, andThen, tryOp, hx, ht, stateOf]

theorem tokenStage_cid (x : Json) (b : Bool) (s : AggState) :
    (stateOf (tokenStage x b s)).conversation_id = s.conversation_id := by
  cases b with
  | false => rfl
  | true =>
    cases hx : pyIndex x "token" with
    | error e => simp [tokenStage, andThen, tryOp, hx, stateOf]
    | ok token =>
      by_cases ht : pyTruthy token
      · cases ha : pyAdd s.full_response token with
        | error e => simp [tokenStage, andThen, tryOp, hx, ha, ht, stateOf]
        | ok fr => simp [tokenStage, andThen, tryOp, hx, ha, ht, stateOf]
      · simp [tokenStage, andThen, tryOp, hx, ht, stateOf]

theorem msgStage_rid (mr : Json) (b : Bool) (s : AggState) :
    (stateOf (msgStage mr b s)).response_id = s.response_id := by
  cases b with
  | false => rfl
  | true =>
    cases hx : pyIndex mr "message" with
    | error e => simp [msgStage, andThen, tryOp, hx, stateOf]
    | ok msg => simp [msgStage, andThen, tryOp, hx, stateOf]

theorem msgStage_cid (mr : Json) (b : Bool) (s : AggState) :
    (stateOf (msgStage mr b s)).conversation_id = s.conversation_id := by
  cases b with
  | false => rfl
  | true =>
    cases hx : pyIndex mr "message" with
    | error e => simp [msgStage, andThen, tryOp, hx, stateOf]
    | ok msg => simp [msgStage, andThen, tryOp, hx, stateOf]

theorem setRidStage_cid (x : Json) (b : Bool) (s : AggState) :
    (stateOf (setRidStage x b s)).conversation_id = s.conversation_id := by
  cases b with
  | false => rfl
  | true =>
    cases hx : pyIndex x "responseId" with
    | error e => simp [setRidStage, andThen, tryOp, hx, stateOf]
    | ok rid => simp [setRidStage, andThen, tryOp, hx, stateOf]

theorem setCidStage_rid (x : Json) (b : Bool) (s : AggState) :
    (stateOf (setCidStage x b s)).response_id = s.response_id := by
  cases b with
  | false => rfl
  | true =>
    cases hx : pyIndex x "conversationId" with
    | error e => simp [setCidStage, andThen, tryOp, hx, stateOf]
    | ok cid => simp [setCidStage, andThen, tryOp, hx, stateOf]

theorem setRidStage_rid (x : Json) (b : Bool) (s : AggState)
    (hx : x.hasKey "responseId" = false) :
    (stateOf (setRidStage x b s)).response_id = s.response_id := by
  cases b with
  | false => rfl
  | true =>
    cases hi : pyIndex x "responseId" with
    | error e => simp [setRidStage, andThen, tryOp, hi, stateOf]
    | ok rid =>
      have := pyIndex_ok hi
      cases x with
      | obj fs => simp [Json.getKey] at this; simp [Json.hasKey, this] at hx
      | null => simp [Json.getKey] at this
      | bool b2 => simp [Json.getKey] at this
      | num n => simp [Json.getKey] at this
      | str s2 => simp [Json.getKey] at this
      | arr xs => simp [Json.getKey] at this

theorem setCidStage_cid (x : Json) (b : Bool) (s : AggState)
    (hx : x.hasKey "conversationId" = false) :
    (stateOf (setCidStage x b s)).conversation_id = s.conversation_id := by
  cases b with
  | false => rfl
  | true =>
    cases hi : pyIndex x "conversationId" with
    | error e => simp [setCidStage, andThen, tryOp, hi, stateOf]
    | ok cid =>
      have := pyIndex_ok hi
      cases x with
      | obj fs => simp [Json.getKey] at this; simp [Json.hasKey, this] at hx
      | null => simp [Json.getKey] at this
      | bool b2 => simp [Json.getKey] at this
      | num n => simp [Json.getKey] at this
      | str s2 => simp [Json.getKey] at this
      | arr xs => simp [Json.getKey] at this

theorem andThen_ok (a : α) (f : α → Except (AggState × Bool) β) :
    andThen (.ok a) f = f a := rfl

theorem method1_rid (result : Json) (h : respSuppliesRid result = false)
    (s : AggState) : (stateOf (method1 result s)).response_id = s.response_id := by
  unfold method1
  refine proj_andThen_tryOp (fun st => st.response_id) s _ _ ?_
  intro inner hinner
  have hgk : result.getKey "response" = some inner := pyIndex_ok hinner
  have hsup : (inner.hasKey "responseId" ||
      (match inner.getKey "modelResponse" with
       | some mr => mr.hasKey "responseId"
       | none => false)) = false := by
    have hx := h
    unfold respSuppliesRid at hx
    rw [hgk] at hx
    exact hx
  simp only [Bool.or_eq_false_iff] at hsup
  simp only [andThen_ok]
  refine proj_andThen_tryOp _ s _ _ ?_
  intro hasToken _
  simp only [andThen_ok]
  refine proj_andThen _ _ _ _ (tokenStage_rid inner hasToken s) ?_
  intro s1 _
  refine proj_andThen_tryOp _ s1 _ _ ?_
  intro hasRid _
  simp only [andThen_ok]
  refine proj_andThen _ _ _ _ (setRidStage_rid inner hasRid s1 hsup.1) ?_
  intro s2 _
  refine proj_andThen_tryOp _ s2 _ _ ?_
  intro hasMR _
  simp only [andThen_ok]
  refine proj_andThen _ _ _ _ ?_ ?_
  · cases hasMR with
    | false => rfl
    | true =>
      refine proj_andThen_tryOp _ s2 _ _ ?_
      intro mr hmr
      have hmrk : inner.getKey "modelResponse" = some mr := pyIndex_ok hmr
      have h2 : mr.hasKey "responseId" = false := by
        have hx := hsup.2
        rw [hmrk] at hx
        exact hx
      simp only [andThen_ok]
      refine proj_andThen_tryOp _ s2 _ _ ?_
      intro hasMsg _
      simp only [andThen_ok]
      refine proj_andThen _ _ _ _ (msgStage_rid mr hasMsg s2) ?_
      intro s3 _
      refine proj_andThen_tryOp _ s3 _ _ ?_
      intro hasMrid _
      simp only [andThen_ok]
      exact setRidStage_rid mr hasMrid s3 h2
  · intro s3 _
    refine proj_andThen_tryOp _ s3 _ _ ?_
    intro stop _
    simp only [andThen_ok]
    cases pyTruthy stop with
    | false => rfl
    | true => rfl

theorem method2_rid (result : Json) (s : AggState) :
    (stateOf (method2 result s)).response_id = s.response_id := by
  unfold method2
  refine proj_andThen_tryOp (fun st => st.response_id) s _ _ ?_
  intro hasConv _
  simp only [andThen_ok]
  cases hasConv with
  | false => rfl
  | true =>
    refine proj_andThen_tryOp _ s _ _ ?_
    intro conv _
    simp only [andThen_ok]
    refine proj_andThen_tryOp _ s _ _ ?_
    intro hasCid _
    simp only [andThen_ok]
    exact setCidStage_rid conv hasCid s

theorem method3_rid (result : Json) (h : result.hasKey "responseId" = false)
    (s : AggState) : (stateOf (method3 result s)).response_id = s.response_id := by
  unfold method3
  refine proj_andThen_tryOp (fun st => st.response_id) s _ _ ?_
  intro hasTok _
  simp only [andThen_ok]
  refine proj_andThen _ _ _ _ (tokenStage_rid result hasTok s) ?_
  intro s1 _
  refine proj_andThen_tryOp _ s1 _ _ ?_
  intro hasCid _
  simp only [andThen_ok]
  refine proj_andThen _ _ _ _ (setCidStage_rid result hasCid s1) ?_
  intro s2 _
  refine proj_andThen_tryOp _ s2 _ _ ?_
  intro hasRid _
  simp only [andThen_ok]
  exact setRidStage_rid result hasRid s2 h

theorem method1_cid (result : Json) (s : AggState) :
    (stateOf (method1 result s)).conversation_id = s.conversation_id := by
  unfold method1
  refine proj_andThen_tryOp (fun st => st.conversation_id) s _ _ ?_
  intro inner _
  simp only [andThen_ok]
  refine proj_andThen_tryOp _ s _ _ ?_
  intro hasToken _
  simp only [andThen_ok]
  refine proj_andThen _ _ _ _ (tokenStage_cid inner hasToken s) ?_
  intro s1 _
  refine proj_andThen_tryOp _ s1 _ _ ?_
  intro hasRid _
  simp only [andThen_ok]
  refine proj_andThen _ _ _ _ (setRidStage_cid inner hasRid s1) ?_
  intro s2 _
  refine proj_andThen_tryOp _ s2 _ _ ?_
  intro hasMR _
  simp only [andThen_ok]
  refine proj_andThen _ _ _ _ ?_ ?_
  · cases hasMR with
    | false => rfl
    | true =>
      refine proj_andThen_tryOp _ s2 _ _ ?_
      intro mr _
      simp only [andThen_ok]
      refine proj_andThen_tryOp _ s2 _ _ ?_
      intro hasMsg _
      simp only [andThen_ok]
      refine proj_andThen _ _ _ _ (msgStage_cid mr hasMsg s2) ?_
      intro s3 _
      refine proj_andThen_tryOp _ s3 _ _ ?_
      intro hasMrid _
      simp only [andThen_ok]
      exact setRidStage_cid mr hasMrid s3
  · intro s3 _
    refine proj_andThen_tryOp _ s3 _ _ ?_
    intro stop _
    simp only [andThen_ok]
    cases pyTruthy stop with
    | false => rfl
    | true => rfl

theorem method2_cid (result : Json)
    (h : (match result.getKey "conversation" with
          | some conv => conv.hasKey "conversationId"
          | none => false) = false)
    (s : AggState) :
    (stateOf (method2 result s)).conversation_id = s.conversation_id := by
  unfold method2
  refine proj_andThen_tryOp (fun st => st.conversation_id) s _ _ ?_
  intro hasConv _
  simp only [andThen_ok]
  cases hasConv with
  | false => rfl
  | true =>
    refine proj_andThen_tryOp _ s _ _ ?_
    intro conv hconv
    have hck : result.getKey "conversation" = some conv := pyIndex_ok hconv
    have h2 : conv.hasKey "conversationId" = false := by
      have hx := h
      rw [hck] at hx
      exact hx
    simp only [andThen_ok]
    refine proj_andThen_tryOp _ s _ _ ?_
    intro hasCid _
    simp only [andThen_ok]
    exact setCidStage_cid conv hasCid s h2

theorem method3_cid (result : Json) (h : result.hasKey "conversationId" = false)
    (s : AggState) :
    (stateOf (method3 result s)).conversation_id = s.conversation_id := by
  unfold method3
  refine proj_andThen_tryOp (fun st => st.conversation_id) s _ _ ?_
  intro hasTok _
  simp only [andThen_ok]
  refine proj_andThen _ _ _ _ (tokenStage_cid result hasTok s) ?_
  intro s1 _
  refine proj_andThen_tryOp _ s1 _ _ ?_
  intro hasCid _
  simp only [andThen_ok]
  refine proj_andThen _ _ _ _ (setCidStage_cid result hasCid s1 h) ?_
  intro s2 _
  refine proj_andThen_tryOp _ s2 _ _ ?_
  intro hasRid _
  simp only [andThen_ok]
  exact setRidStage_cid result hasRid s2

theorem processParsed_rid (data : Json) (s : AggState)
    (h : suppliesResponseId data = false) :
    (processParsed data s).1.response_id = s.response_id := by
  have key : (stateOf (processParsedE data s)).response_id = s.response_id := by
    unfold processParsedE
    refine proj_andThen_tryOp (fun st => st.response_id) s _ _ ?_
    intro hasResult _
    simp only [andThen_ok]
    cases hasResult with
    | false => rfl
    | true =>
      refine proj_andThen_tryOp _ s _ _ ?_
      intro result hres
      have hrk : data.getKey "result" = some result := pyIndex_ok hres
      have h2 : (respSuppliesRid result || result.hasKey "responseId") = false := by
        have hx := h
        unfold suppliesResponseId at hx
        rw [hrk] at hx
        exact hx
      simp only [Bool.or_eq_false_iff] at h2
      simp only [andThen_ok]
      refine proj_andThen_tryOp _ s _ _ ?_
      intro hasResponse _
      simp only [andThen_ok]
      refine proj_andThen _ _ _ _ ?_ ?_
      · cases hasResponse with
        | false => rfl
        | true => exact method1_rid result h2.1 s
      · intro s1 _
        refine proj_andThen _ _ _ _ (method2_rid result s1) ?_
        intro s2 _
        exact method3_rid result h2.2 s2
  unfold processParsed
  cases hp : processParsedE data s with
  | ok s1 => rw [hp] at key; exact key
  | error r => rw [hp] at key; exact key

theorem processParsed_cid (data : Json) (s : AggState)
    (h : suppliesConversationId data = false) :
    (processParsed data s).1.conversation_id = s.conversation_id := by
  have key : (stateOf (processParsedE data s)).conversation_id = s.conversation_id := by
    unfold processParsedE
    refine proj_andThen_tryOp (fun st => st.conversation_id) s _ _ ?_
    intro hasResult _
    simp only [andThen_ok]
    cases hasResult with
    | false => rfl
    | true =>
      refine proj_andThen_tryOp _ s _ _ ?_
      intro result hres
      have hrk : data.getKey "result" = some result := pyIndex_ok hres
      have h2 : ((match result.getKey "conversation" with
                  | some conv => conv.hasKey "conversationId"
                  | none => false) || result.hasKey "conversationId") = false := by
        have hx := h
        unfold suppliesConversationId at hx
        rw [hrk] at hx
        exact hx
      simp only [Bool.or_eq_false_iff] at h2
      simp only [andThen_ok]
      refine proj_andThen_tryOp _ s _ _ ?_
      intro hasResponse _
      simp only [andThen_ok]
      refine proj_andThen _ _ _ _ ?_ ?_
      · cases hasResponse with
        | false => rfl
        | true => exact method1_cid result s
      · intro s1 _
        refine proj_andThen _ _ _ _ (method2_cid result h2.1 s1) ?_
        intro s2 _
        exact method3_cid result h2.2 s2
  unfold processParsed
  cases hp : processParsedE data s with
  | ok s1 => rw [hp] at key; exact key
  | error r => rw [hp] at key; exact key

/-- C6 counterexample: a nested-shape line whose `responseId` field is
explicitly null DOES clear a previously-set response id (the assignment is
unconditional, with no non-null guard): after a line setting `r1` and a
line supplying null, the returned response id is null, not `r1`. -/
theorem null_clears_id_cex :
    (parse_streaming_response
        [.parsed (ridData (.str "r1")), .parsed (ridData .null)]).response_id
      = Json.null ∧
    (parse_streaming_response
        [.parsed (ridData (.str "r1")), .parsed (ridData .null)]).response_id
      ≠ Json.str "r1" :=
  ⟨rfl, fun h => Json.noConfusion h⟩

/-- C6 amended: a line that nowhere supplies the `responseId`
(respectively `conversationId`) field — in the nested response shape, in
`modelResponse`, or in the legacy flat shape — leaves the previously-set
identifier unchanged, whatever the state; but a line that explicitly
supplies the field with value null overwrites the identifier with null
(third conjunct), so only the absence of the field, not a null value,
preserves it. -/
theorem ids_only_changed_by_explicit_fields :
    (∀ data s, suppliesResponseId data = false →
        ((stepRaw (.parsed data) s).1).response_id = s.response_id) ∧
    (∀ data s, suppliesConversationId data = false →
        ((stepRaw (.parsed data) s).1).conversation_id = s.conversation_id) ∧
    (∀ s, ((stepRaw (.parsed (ridData .null)) s).1).response_id = Json.null) :=
  ⟨fun data s h => processParsed_rid data { s with line_count := s.line_count + 1 } h,
   fun data s h => processParsed_cid data { s with line_count := s.line_count + 1 } h,
   fun _ => rfl⟩

/-- Witness for C6 at a concrete line and state: a pure token line leaves
both identifiers of the initial state unchanged. -/
theorem ids_only_changed_by_explicit_fields_witness :
    ((stepRaw (.parsed (tokData "z")) initState).1).response_id
        = initState.response_id ∧
    ((stepRaw (.parsed (tokData "z")) initState).1).conversation_id
        = initState.conversation_id :=
  ⟨ids_only_changed_by_explicit_fields.1 (tokData "z") initState rfl,
   ids_only_changed_by_explicit_fields.2.1 (tokData "z") initState rfl⟩
